import Mathlib

/-!
Verification development for the SMP codec utilities of the smp_utils
repository: smp_rep_general.c, smp_conf_general.c, smp_discover.c and
smp_rep_broadcast.c.  Each definition below is a shallow embedding of the
post-transport portion of one of those files (frame construction, response
length resolution, response validation and field decoding).  Response
buffers are modelled as total functions from byte index to byte value,
mirroring the C arrays that the utilities index at fixed offsets; the
actual transport length is an `Int` (negative means "unknown"), exactly as
the C `act_response_len` field.  Human-readable rendering (exact print
layout, lookup-table display strings, the bitwise re-rendering done by
decode_phy_cap) is abstracted to a list of (field name, numeric value)
emissions, matching the spec's scoping which excludes text formatting.
-/

/-- Response buffer: byte index to byte value, as read from a C `unsigned
char` array. -/
abbrev ByteBuf := Nat → Nat

/-- Request frame type marker; spec section 6 fixes byte 0 of a request to
0x40 (constant SMP_FRAME_TYPE_REQ of smp_lib.h). -/
def SMP_FRAME_TYPE_REQ : Nat := 0x40

/-- Response frame type marker; spec section 6 fixes byte 0 of a response to
0x41 (constant SMP_FRAME_TYPE_RESP of smp_lib.h). -/
def SMP_FRAME_TYPE_RESP : Nat := 0x41

/-- Modelled from the spec: function-code constant SMP_FN_REPORT_GENERAL from
smp_lib.h, which is not under src/.  The claims use it only symbolically. -/
def SMP_FN_REPORT_GENERAL : Nat := 0x0

/-- Modelled from the spec: function-code constant SMP_FN_CONFIG_GENERAL from
smp_lib.h, which is not under src/.  The claims use it only symbolically. -/
def SMP_FN_CONFIG_GENERAL : Nat := 0x80

/-- Modelled from the spec: function-code constant SMP_FN_DISCOVER from
smp_lib.h, which is not under src/.  The claims use it only symbolically. -/
def SMP_FN_DISCOVER : Nat := 0x10

/-- Modelled from the spec: function-code constant SMP_FN_REPORT_BROADCAST
from smp_lib.h, which is not under src/.  Used only symbolically. -/
def SMP_FN_REPORT_BROADCAST : Nat := 0x6

/-- Modelled from the spec: exit-status constant SMP_LIB_CAT_MALFORMED from
smp_lib.h (not under src/), the "malformed response" exit category.  The
claims depend only on it being a fixed nonzero code. -/
def SMP_LIB_CAT_MALFORMED : Int := 97

/-- Modelled from the spec: function-result code SMP_FRES_NO_PHY ("phy does
not exist") from smp_lib.h, not under src/; an expected termination signal
in multi-phy enumeration. -/
def SMP_FRES_NO_PHY : Nat := 0x10

/-- Modelled from the spec: function-result code SMP_FRES_PHY_VACANT from
smp_lib.h, not under src/; an expected continue signal in multi-phy
enumeration. -/
def SMP_FRES_PHY_VACANT : Nat := 0x16

/-- Big-endian read of `n` bytes starting at `off`, as sg_get_unaligned_beXX
of sg_unaligned.h does. -/
def bytesBE (b : ByteBuf) (off n : Nat) : Nat :=
  (List.range n).foldl (fun a i => a * 256 + b (off + i)) 0

/-- sg_get_unaligned_be16: big-endian 16-bit read. -/
def sg_get_unaligned_be16 (b : ByteBuf) (off : Nat) : Nat := bytesBE b off 2

/-- sg_get_unaligned_be32: big-endian 32-bit read. -/
def sg_get_unaligned_be32 (b : ByteBuf) (off : Nat) : Nat := bytesBE b off 4

/-- sg_get_unaligned_be64: big-endian 64-bit read. -/
def sg_get_unaligned_be64 (b : ByteBuf) (off : Nat) : Nat := bytesBE b off 8

/-- C idiom `!!(x & mask)`: 1 when the masked bits are nonzero, else 0. -/
def bflag (x mask : Nat) : Nat := if x &&& mask ≠ 0 then 1 else 0

/-- smp_rep_general.c lines 274-283: response length resolution of the
REPORT GENERAL utility.  `defTbl` is the per-function-code default-length
table smp_get_func_def_resp_len (negative when the code is unrecognized).
Note: this file consults the table whenever byte 3 is zero, without
looking at the function-result byte, and never clamps to the actual
transport length. -/
def rgResolveLen (defTbl : Nat → Int) (resp : ByteBuf) : Nat :=
  let l0 := resp 3
  let l1 := if l0 = 0 then
      (let d := defTbl (resp 1); if d < 0 then 0 else d.toNat)
    else l0
  4 + l1 * 4

/-- smp_conf_general.c lines 425-434: deduced response byte length before
clamping; the default table is consulted only when byte 3 and the
function-result byte are both zero. -/
def cgDeducedLen (defTbl : Nat → Int) (resp : ByteBuf) : Nat :=
  let l0 := resp 3
  let l1 := if l0 = 0 ∧ resp 2 = 0 then
      (let d := defTbl (resp 1); if d < 0 then 0 else d.toNat)
    else l0
  4 + l1 * 4

/-- smp_conf_general.c lines 435-440: clamp the deduced length to the actual
transport length when the latter is known (non-negative) and smaller. -/
def cgResolveLen (defTbl : Nat → Int) (resp : ByteBuf) (act : Int) : Nat :=
  let len := cgDeducedLen defTbl resp
  if 0 ≤ act ∧ (len : Int) > act then act.toNat else len

/-- smp_discover.c do_discover lines 444-452: deduced response byte length
before clamping (same rule as smp_conf_general.c). -/
def discDeducedLen (defTbl : Nat → Int) (resp : ByteBuf) : Nat :=
  let l0 := resp 3
  let l1 := if l0 = 0 ∧ resp 2 = 0 then
      (let d := defTbl (resp 1); if d < 0 then 0 else d.toNat)
    else l0
  4 + l1 * 4

/-- smp_discover.c do_discover lines 453-459: deduced length clamped to the
actual transport length when known and smaller. -/
def discResolveLen (defTbl : Nat → Int) (resp : ByteBuf) (act : Int) : Nat :=
  let len := discDeducedLen defTbl resp
  if 0 ≤ act ∧ (len : Int) > act then act.toNat else len

/-- smp_rep_broadcast.c lines 306-314: deduced response byte length before
clamping (same rule as smp_conf_general.c). -/
def rbDeducedLen (defTbl : Nat → Int) (resp : ByteBuf) : Nat :=
  let l0 := resp 3
  let l1 := if l0 = 0 ∧ resp 2 = 0 then
      (let d := defTbl (resp 1); if d < 0 then 0 else d.toNat)
    else l0
  4 + l1 * 4

/-- smp_rep_broadcast.c lines 315-321: deduced length clamped to the actual
transport length when known and smaller. -/
def rbResolveLen (defTbl : Nat → Int) (resp : ByteBuf) (act : Int) : Nat :=
  let len := rbDeducedLen defTbl resp
  if 0 ≤ act ∧ (len : Int) > act then act.toNat else len

/-- Outcome of the post-transport portion of a utility's main: the exit
status it will report, the number of bytes dumped verbatim when hex/raw
output was requested, and the decoded (field name, value) emissions. -/
structure MainOut where
  ret : Int
  rawLen : Option Nat
  fields : List (String × Nat)
deriving DecidableEq

/-- smp_rep_general.c lines 320-332: ungated REPORT GENERAL fields. -/
def rgBaseFields (resp : ByteBuf) : List (String × Nat) :=
  [("expander change count", sg_get_unaligned_be16 resp 4),
   ("expander route indexes", sg_get_unaligned_be16 resp 6),
   ("number of phys", resp 9),
   ("table to table supported", bflag (resp 10) 0x80),
   ("configures others", bflag (resp 10) 0x4),
   ("configuring", bflag (resp 10) 0x2),
   ("externally configurable route table", bflag (resp 10) 0x1)]

/-- smp_rep_general.c lines 333-341: the enclosure logical identifier is
printed when byte 12 is nonzero; when byte 12 is zero and verbose is set an
explicit emptiness marker is printed instead (the identifier is never
rendered as a zero value). -/
def rgEnclFields (resp : ByteBuf) (verbose : Bool) : List (String × Nat) :=
  (if resp 12 ≠ 0 then
     [("enclosure logical identifier", sg_get_unaligned_be64 resp 12)]
   else [])
  ++ (if resp 12 = 0 ∧ verbose then
     [("enclosure logical identifier empty", 0)]
   else [])

/-- smp_rep_general.c lines 342-394: length-gated trailing REPORT GENERAL
fields; each `goto err_out` of the source becomes a nested cut-off. -/
def rgGatedFields (resp : ByteBuf) (len : Nat) : List (String × Nat) :=
  if len < 36 then [] else
    [("STP bus inactivity timer", sg_get_unaligned_be16 resp 30),
     ("STP maximum connect time", sg_get_unaligned_be16 resp 32),
     ("STP SMP I_T nexus loss time", sg_get_unaligned_be16 resp 34)]
    ++ (if len < 40 then [] else
      [("number of zone groups", (resp 36 &&& 0xc0) >>> 6),
       ("zone locked", bflag (resp 36) 0x10),
       ("physical presence supported", bflag (resp 36) 0x8),
       ("physical presence asserted", bflag (resp 36) 0x4),
       ("zoning supported", bflag (resp 36) 0x2),
       ("zoning enabled", bflag (resp 36) 0x1),
       ("maximum number of routed SAS addresses", sg_get_unaligned_be16 resp 38)]
      ++ (if len < 48 then [] else
        [("active zone manager SAS address", sg_get_unaligned_be64 resp 40)]
        ++ (if len < 50 then [] else
          [("zone lock inactivity time limit", sg_get_unaligned_be16 resp 48)]
          ++ (if len < 56 then [] else
            [("first enclosure connector element index", resp 53),
             ("number of enclosure connector element indexes", resp 54)]
            ++ (if len < 60 then [] else
              [("reduced functionality", bflag (resp 56) 0x80),
               ("time to reduced functionality", resp 57),
               ("initial time to reduced functionality", resp 58),
               ("maximum reduced functionality time", resp 59)]
              ++ (if len < 68 then [] else
                [("last self-configuration status descriptor index",
                  sg_get_unaligned_be16 resp 60),
                 ("maximum number of stored self-configuration status descriptors",
                  sg_get_unaligned_be16 resp 62),
                 ("last phy event information descriptor index",
                  sg_get_unaligned_be16 resp 64),
                 ("maximum number of stored phy event information descriptors",
                  sg_get_unaligned_be16 resp 66)]))))))

/-- smp_rep_general.c lines 316-394: decoded REPORT GENERAL report (reached
once the response has been validated and the function result is zero). -/
def rgDecodeFields (resp : ByteBuf) (len : Nat) (verbose : Bool) :
    List (String × Nat) :=
  rgBaseFields resp ++ rgEnclFields resp verbose ++ rgGatedFields resp len

/-- smp_rep_general.c main, post-transport portion (lines 268-402): the
short-response check, length resolution, hex/raw dump with validation, and
the validated structured decode.  `act` is smp_rr.act_response_len. -/
def rgMain (defTbl : Nat → Int) (act : Int) (resp : ByteBuf)
    (do_hex do_raw do_change verbose : Bool) : MainOut :=
  if 0 ≤ act ∧ act < 4 then ⟨SMP_LIB_CAT_MALFORMED, none, []⟩
  else
    let len := rgResolveLen defTbl resp
    if do_hex || do_raw then
      let r0 : Int := if resp 0 ≠ SMP_FRAME_TYPE_RESP then SMP_LIB_CAT_MALFORMED else 0
      let r1 : Int := if resp 1 ≠ SMP_FN_REPORT_GENERAL then SMP_LIB_CAT_MALFORMED else r0
      let r2 : Int := if resp 2 ≠ 0 then (resp 2 : Int) else r1
      ⟨r2, some len, []⟩
    else if resp 0 ≠ SMP_FRAME_TYPE_RESP then ⟨SMP_LIB_CAT_MALFORMED, none, []⟩
    else if resp 1 ≠ SMP_FN_REPORT_GENERAL then ⟨SMP_LIB_CAT_MALFORMED, none, []⟩
    else if resp 2 ≠ 0 then ⟨(resp 2 : Int), none, []⟩
    else if do_change then
      ⟨0, none, [("expander change count", sg_get_unaligned_be16 resp 4)]⟩
    else ⟨0, none, rgDecodeFields resp len verbose⟩

/-- smp_conf_general.c main, post-transport portion (lines 419-474): the
short-response check, length resolution with clamping, hex/raw dump with
validation, and the validated (fieldless) outcome. -/
def cgMain (defTbl : Nat → Int) (act : Int) (resp : ByteBuf)
    (do_hex do_raw : Bool) : MainOut :=
  if 0 ≤ act ∧ act < 4 then ⟨SMP_LIB_CAT_MALFORMED, none, []⟩
  else
    let len := cgResolveLen defTbl resp act
    if do_hex || do_raw then
      let r : Int :=
        if resp 0 ≠ SMP_FRAME_TYPE_RESP then SMP_LIB_CAT_MALFORMED
        else if resp 1 ≠ SMP_FN_CONFIG_GENERAL then SMP_LIB_CAT_MALFORMED
        else if resp 2 ≠ 0 then (resp 2 : Int)
        else 0
      ⟨r, some len, []⟩
    else if resp 0 ≠ SMP_FRAME_TYPE_RESP then ⟨SMP_LIB_CAT_MALFORMED, none, []⟩
    else if resp 1 ≠ SMP_FN_CONFIG_GENERAL then ⟨SMP_LIB_CAT_MALFORMED, none, []⟩
    else if resp 2 ≠ 0 then ⟨(resp 2 : Int), none, []⟩
    else ⟨0, none, []⟩

/-- smp_discover.c do_discover, post-transport portion (lines 439-493):
returns the resolved response byte length on success and a negated error
code (-4 - code, or -4 - SMP_LIB_CAT_MALFORMED) on failure, exactly as the
C function's int return value. -/
def do_discover_resp (defTbl : Nat → Int) (act : Int) (resp : ByteBuf)
    (do_hex do_raw : Bool) : Int :=
  if 0 ≤ act ∧ act < 4 then -4 - SMP_LIB_CAT_MALFORMED
  else
    let len := discResolveLen defTbl resp act
    if do_hex || do_raw then
      if resp 0 ≠ SMP_FRAME_TYPE_RESP then -4 - SMP_LIB_CAT_MALFORMED
      else if resp 1 ≠ SMP_FN_DISCOVER then -4 - SMP_LIB_CAT_MALFORMED
      else if resp 2 ≠ 0 then -4 - (resp 2 : Int)
      else (len : Int)
    else if resp 0 ≠ SMP_FRAME_TYPE_RESP then -4 - SMP_LIB_CAT_MALFORMED
    else if resp 1 ≠ SMP_FN_DISCOVER then -4 - SMP_LIB_CAT_MALFORMED
    else if resp 2 ≠ 0 then -4 - (resp 2 : Int)
    else (len : Int)

/-- One REPORT BROADCAST descriptor as decoded by smp_rep_broadcast.c lines
374-384: type nibble, phy id (0xff meaning "no specific phy"), reason
nibble and big-endian 16-bit count. -/
structure BDescr where
  btype : Nat
  phy_id : Option Nat
  reason : Nat
  count : Nat
deriving DecidableEq

/-- smp_rep_broadcast.c lines 374-384: decode one broadcast descriptor
starting at byte offset `base`. -/
def rbDecodeDescr (resp : ByteBuf) (base : Nat) : BDescr :=
  ⟨resp base &&& 0xf,
   if resp (base + 1) = 0xff then none else some (resp (base + 1)),
   resp (base + 2) &&& 0xf,
   sg_get_unaligned_be16 resp (base + 4)⟩

/-- smp_rep_broadcast.c lines 356-366: REPORT BROADCAST header fields
(expander change count is printed only when verbose or nonzero). -/
def rbHeaderFields (resp : ByteBuf) (verbose : Bool) : List (String × Nat) :=
  (if verbose ∨ sg_get_unaligned_be16 resp 4 ≠ 0 then
     [("expander change count", sg_get_unaligned_be16 resp 4)]
   else [])
  ++ [("broadcast type", resp 6 &&& 0xf),
      ("broadcast descriptor length dwords", resp 10),
      ("number of broadcast descriptors", resp 11)]

/-- Outcome of smp_rep_broadcast.c's post-transport portion: exit status,
hex/raw dump length, header fields and the decoded descriptor sequence. -/
structure RbOut where
  ret : Int
  rawLen : Option Nat
  fields : List (String × Nat)
  descriptors : List BDescr
deriving DecidableEq

/-- smp_rep_broadcast.c main, post-transport portion (lines 300-391): the
short-response check, length resolution with clamping, hex/raw dump with
validation, header decode, the stride sanity check (descriptor length below
8 bytes is a malformed-response failure with ret = -1, mapped to
SMP_LIB_CAT_OTHER at exit and decoding no descriptor), and the descriptor
loop: num_descriptors descriptors from byte 12 advancing by the stride. -/
def rbMain (defTbl : Nat → Int) (act : Int) (resp : ByteBuf)
    (do_hex do_raw verbose : Bool) : RbOut :=
  if 0 ≤ act ∧ act < 4 then ⟨SMP_LIB_CAT_MALFORMED, none, [], []⟩
  else
    let len := rbResolveLen defTbl resp act
    if do_hex || do_raw then
      let r0 : Int := if resp 0 ≠ SMP_FRAME_TYPE_RESP then SMP_LIB_CAT_MALFORMED else 0
      let r1 : Int := if resp 1 ≠ SMP_FN_REPORT_BROADCAST then SMP_LIB_CAT_MALFORMED else r0
      let r2 : Int := if resp 2 ≠ 0 then (resp 2 : Int) else r1
      ⟨r2, some len, [], []⟩
    else if resp 0 ≠ SMP_FRAME_TYPE_RESP then ⟨SMP_LIB_CAT_MALFORMED, none, [], []⟩
    else if resp 1 ≠ SMP_FN_REPORT_BROADCAST then ⟨SMP_LIB_CAT_MALFORMED, none, [], []⟩
    else if resp 2 ≠ 0 then ⟨(resp 2 : Int), none, [], []⟩
    else
      let bd_len := resp 10 * 4
      let num_bd := resp 11
      if bd_len < 8 then ⟨-1, none, rbHeaderFields resp verbose, []⟩
      else
        ⟨0, none, rbHeaderFields resp verbose,
         (List.range num_bd).map fun k => rbDecodeDescr resp (12 + k * bd_len)⟩

/-- smp_discover.c print_single lines 686-699: header part of the single-phy
DISCOVER report (the expander SAS address value is fetched only when the
resolved length exceeds 23 bytes, otherwise it renders as 0). -/
def psHead (rp : ByteBuf) (just1 : Bool) (brief verbose : Nat) :
    List (String × Nat) :=
  (if just1 then [] else [("phy identifier", rp 9)])
  ++ (if ((rp 3 ≠ 0 ∧ brief = 0) ∨ verbose > 3)
        ∧ (verbose > 0 ∨ sg_get_unaligned_be16 rp 4 > 0) then
        [("expander change count", sg_get_unaligned_be16 rp 4)]
      else [])
  ++ (if just1 then [("phy identifier", rp 9)] else [])
  ++ [("attached SAS device type", (rp 12 &&& 0x70) >>> 4)]

/-- smp_discover.c print_single lines 706-761: middle part of the single-phy
DISCOVER report, up to and including the routing attribute.  Display-string
lookups (device type, link rate, reason, routing) are abstracted to the raw
numeric value, per the spec's exclusion of text formatting. -/
def psMid (rp : ByteBuf) (len : Nat) (brief verbose : Nat) :
    List (String × Nat) :=
  (if rp 3 ≠ 0 ∨ verbose > 3 then [("attached reason", rp 12 &&& 0xf)] else [])
  ++ [("negotiated logical link rate", rp 13 &&& 0xf),
      ("attached initiator", rp 14 &&& 0xf)]
  ++ (if brief = 0 then
        [("attached sata port selector", bflag (rp 15) 0x80),
         ("STP buffer too small", bflag (rp 15) 0x10)]
      else [])
  ++ [("attached target", rp 15 &&& 0xf),
      ("SAS address", if len > 23 then sg_get_unaligned_be64 rp 16 else 0),
      ("attached SAS address", sg_get_unaligned_be64 rp 24),
      ("attached phy identifier", rp 32)]
  ++ (if brief = 0 then
        (if rp 3 ≠ 0 ∨ verbose > 3 then
           [("attached persistent capable", bflag (rp 33) 0x80),
            ("attached power capable", (rp 33 >>> 5) &&& 0x3),
            ("attached slumber capable", bflag (rp 33) 0x10),
            ("attached partial capable", bflag (rp 33) 0x8),
            ("attached inside ZPSDS persistent", bflag (rp 33) 0x4),
            ("attached requested inside ZPSDS", bflag (rp 33) 0x2),
            ("attached break_reply capable", bflag (rp 33) 0x1),
            ("attached apta capable", bflag (rp 34) 0x4),
            ("attached smp priority capable", bflag (rp 34) 0x2),
            ("attached pwr_dis capable", bflag (rp 34) 0x1)]
         else [])
        ++ [("programmed minimum physical link rate", (rp 40 >>> 4) &&& 0xf),
            ("hardware minimum physical link rate", rp 40 &&& 0xf),
            ("programmed maximum physical link rate", (rp 41 >>> 4) &&& 0xf),
            ("hardware maximum physical link rate", rp 41 &&& 0xf),
            ("phy change count", rp 42),
            ("virtual phy", bflag (rp 43) 0x80),
            ("partial pathway timeout value", rp 43 &&& 0xf)]
      else [])
  ++ [("routing attribute", rp 44 &&& 0xf)]

/-- smp_discover.c print_single lines 767-789: connector and power block,
emitted when the response declares a SAS-2 length or the connector type
byte is nonzero. -/
def psConn (rp : ByteBuf) : List (String × Nat) :=
  if rp 3 ≠ 0 ∨ rp 45 &&& 0x7f ≠ 0 then
    [("connector type", rp 45 &&& 0x7f),
     ("connector element index", rp 46),
     ("connector physical link", rp 47),
     ("phy power condition", (rp 48 &&& 0xc0) >>> 6),
     ("sas power capable", (rp 48 >>> 4) &&& 0x3),
     ("sas slumber capable", bflag (rp 48) 0x8),
     ("sas partial capable", bflag (rp 48) 0x4),
     ("sata slumber capable", bflag (rp 48) 0x2),
     ("sata partial capable", bflag (rp 48) 0x1),
     ("pwr_dis signal", (rp 49 &&& 0xc0) >>> 6),
     ("pwr_dis control capable", (rp 49 &&& 0x30) >>> 4),
     ("sas slumber enabled", bflag (rp 49) 0x8),
     ("sas partial enabled", bflag (rp 49) 0x4),
     ("sata slumber enabled", bflag (rp 49) 0x2),
     ("sata partial enabled", bflag (rp 49) 0x1)]
  else []

/-- smp_discover.c print_single lines 790-801: fields gated by resolved
length above 59 bytes (attached device name and zoning state). -/
def psB59 (rp : ByteBuf) : List (String × Nat) :=
  [("attached device name", sg_get_unaligned_be64 rp 52),
   ("requested inside ZPSDS changed by expander", bflag (rp 60) 0x40),
   ("inside ZPSDS persistent", bflag (rp 60) 0x20),
   ("requested inside ZPSDS", bflag (rp 60) 0x10),
   ("zone group persistent", bflag (rp 60) 0x4),
   ("inside ZPSDS", bflag (rp 60) 0x2),
   ("zoning enabled", bflag (rp 60) 0x1),
   ("zone group", rp 63)]

/-- smp_discover.c print_single lines 804-819: fields reached only when the
resolved length is at least 76 bytes (the source returns early on
len < 76).  decode_phy_cap's bitwise re-rendering of the three capability
words is presentation of the same values and is not duplicated here. -/
def psB76 (rp : ByteBuf) : List (String × Nat) :=
  [("self-configuration status", rp 64),
   ("self-configuration levels completed", rp 65),
   ("self-configuration sas address", sg_get_unaligned_be64 rp 68),
   ("programmed phy capabilities", sg_get_unaligned_be32 rp 76),
   ("current phy capabilities", sg_get_unaligned_be32 rp 80),
   ("attached phy capabilities", sg_get_unaligned_be32 rp 84)]

/-- smp_discover.c print_single lines 821-863: trailing blocks gated by
resolved length above 95, 107, 109, 115, 117 and 118 bytes. -/
def psTail (rp : ByteBuf) (len : Nat) : List (String × Nat) :=
  (if len > 95 then
     [("reason", (rp 94 &&& 0xf0) >>> 4),
      ("negotiated physical link rate", rp 94 &&& 0xf),
      ("optical mode enabled", bflag (rp 95) 0x4),
      ("negotiated SSC", bflag (rp 95) 0x2),
      ("hardware muxing supported", bflag (rp 95) 0x1)]
   else [])
  ++ (if len > 107 then
     [("default inside ZPSDS persistent", bflag (rp 96) 0x20),
      ("default requested inside ZPSDS", bflag (rp 96) 0x10),
      ("default zone group persistent", bflag (rp 96) 0x4),
      ("default zoning enabled", bflag (rp 96) 0x1),
      ("default zone group", rp 99),
      ("saved inside ZPSDS persistent", bflag (rp 100) 0x20),
      ("saved requested inside ZPSDS", bflag (rp 100) 0x10),
      ("saved zone group persistent", bflag (rp 100) 0x4),
      ("saved zoning enabled", bflag (rp 100) 0x1),
      ("saved zone group", rp 103),
      ("shadow inside ZPSDS persistent", bflag (rp 104) 0x20),
      ("shadow requested inside ZPSDS", bflag (rp 104) 0x10),
      ("shadow zone group persistent", bflag (rp 104) 0x4),
      ("shadow zoning enabled", bflag (rp 104) 0x1),
      ("shadow zone group", rp 107)]
   else [])
  ++ (if len > 109 then
     [("device slot number", rp 108),
      ("device slot group number", rp 109)]
   else [])
  ++ (if len > 115 then
     [("device slot group output connector", bytesBE rp 110 6)]
   else [])
  ++ (if len > 117 then
     [("STP buffer size", sg_get_unaligned_be16 rp 116)]
   else [])
  ++ (if len > 118 then
     [("Buffered phy burst size", rp 118)]
   else [])

/-- smp_discover.c print_single (lines 676-865): the single-phy DISCOVER
field decoder.  `len` is the resolved response byte length, `just1`
distinguishes the single-phy header, `brief` and `verbose` are the
repeat-counted option flags.  Early returns of the source (brief summary
with no attached device, brief mode after the routing attribute, length
below 76 inside the zoning block) become cut-offs of the emission list. -/
def printSingle (rp : ByteBuf) (len : Nat) (just1 : Bool)
    (brief verbose : Nat) : List (String × Nat) :=
  psHead rp just1 brief verbose
  ++ (if brief > 1 ∧ (rp 12 &&& 0x70) >>> 4 = 0 then []
      else psMid rp len brief verbose
        ++ (if brief > 0 then
              (if len > 63 ∧ rp 60 &&& 0x1 ≠ 0 then [("zone group", rp 63)] else [])
            else psConn rp
              ++ (if len > 59 then
                    psB59 rp ++ (if len < 76 then [] else psB76 rp ++ psTail rp len)
                  else psTail rp len)))

/-- Names of print_single fields that are not gated on the resolved response
length (they may be gated on option flags or on non-length response bits). -/
def psBaseNames : List String :=
  ["phy identifier", "expander change count", "attached SAS device type",
   "attached reason", "negotiated logical link rate", "attached initiator",
   "attached sata port selector", "STP buffer too small", "attached target",
   "SAS address", "attached SAS address", "attached phy identifier",
   "attached persistent capable", "attached power capable",
   "attached slumber capable", "attached partial capable",
   "attached inside ZPSDS persistent", "attached requested inside ZPSDS",
   "attached break_reply capable", "attached apta capable",
   "attached smp priority capable", "attached pwr_dis capable",
   "programmed minimum physical link rate", "hardware minimum physical link rate",
   "programmed maximum physical link rate", "hardware maximum physical link rate",
   "phy change count", "virtual phy", "partial pathway timeout value",
   "routing attribute", "connector type", "connector element index",
   "connector physical link", "phy power condition", "sas power capable",
   "sas slumber capable", "sas partial capable", "sata slumber capable",
   "sata partial capable", "pwr_dis signal", "pwr_dis control capable",
   "sas slumber enabled", "sas partial enabled", "sata slumber enabled",
   "sata partial enabled"]

/-- print_single fields guarded by a minimum resolved-length threshold,
paired with that threshold: the field is emitted only when the resolved
byte length strictly exceeds the threshold ("zone group" carries its lowest
guard, 59; in brief mode its guard is the stricter 63). -/
def discGuardedFields : List (Nat × String) :=
  [(59, "attached device name"),
   (59, "requested inside ZPSDS changed by expander"),
   (59, "inside ZPSDS persistent"),
   (59, "requested inside ZPSDS"),
   (59, "zone group persistent"),
   (59, "inside ZPSDS"),
   (59, "zoning enabled"),
   (59, "zone group"),
   (75, "self-configuration status"),
   (75, "self-configuration levels completed"),
   (75, "self-configuration sas address"),
   (75, "programmed phy capabilities"),
   (75, "current phy capabilities"),
   (75, "attached phy capabilities"),
   (95, "reason"),
   (95, "negotiated physical link rate"),
   (95, "optical mode enabled"),
   (95, "negotiated SSC"),
   (95, "hardware muxing supported"),
   (107, "default inside ZPSDS persistent"),
   (107, "default requested inside ZPSDS"),
   (107, "default zone group persistent"),
   (107, "default zoning enabled"),
   (107, "default zone group"),
   (107, "saved inside ZPSDS persistent"),
   (107, "saved requested inside ZPSDS"),
   (107, "saved zone group persistent"),
   (107, "saved zoning enabled"),
   (107, "saved zone group"),
   (107, "shadow inside ZPSDS persistent"),
   (107, "shadow requested inside ZPSDS"),
   (107, "shadow zone group persistent"),
   (107, "shadow zoning enabled"),
   (107, "shadow zone group"),
   (109, "device slot number"),
   (109, "device slot group number"),
   (115, "device slot group output connector"),
   (117, "STP buffer size"),
   (118, "Buffered phy burst size")]

/-- Events observed during multi-phy DISCOVER enumeration: a phy that was
decoded and reported, or one reported as inaccessible (phy vacant). -/
inductive PhyEvent where
| reported (k : Nat)
| inaccessible (k : Nat)
deriving DecidableEq

/-- smp_discover.c do_multiple lines 957-970: the enumeration loop, driven
by an oracle giving do_discover's return value for each phy index.  The
first argument of the recursion is the current phy id `k`, the second the
remaining iteration count (`num - k` of the C for-loop).  A NO_PHY result
ends the loop with success; PHY_VACANT reports the phy as inaccessible and
continues (leaving ret at the vacant code, exactly as the C does when the
vacant phy is the last one probed); any other nonzero result aborts.  The
per-phy report produced by the rest of the loop body is abstracted to a
`reported` event, per the spec's exclusion of presentation. -/
def doMultipleAux (oracle : Nat → Int) :
    Nat → Nat → Int → List PhyEvent → Int × List PhyEvent
  | _, 0, ret, evs => (ret, evs)
  | k, n + 1, _, evs =>
    let len := oracle k
    let ret : Int := if len < 0 then (if len < -2 then -4 - len else len) else 0
    if ret = (SMP_FRES_NO_PHY : Int) then (0, evs)
    else if ret = (SMP_FRES_PHY_VACANT : Int) then
      doMultipleAux oracle (k + 1) n ret (evs ++ [PhyEvent.inaccessible k])
    else if ret ≠ 0 then (ret, evs)
    else doMultipleAux oracle (k + 1) n ret (evs ++ [PhyEvent.reported k])

/-- smp_discover.c do_multiple: run the enumeration loop from phy id
`start` while `k < num`, starting with ret = 0. -/
def doMultiple (oracle : Nat → Int) (start num : Nat) : Int × List PhyEvent :=
  doMultipleAux oracle start (num - start) 0 []

/-- sg_put_unaligned_be16 of sg_unaligned.h: store a value, truncated to 16
bits, big-endian at byte offset `off`. -/
def sg_put_unaligned_be16 (v : Nat) (buf : List Nat) (off : Nat) : List Nat :=
  (buf.set off (v % 65536 / 256)).set (off + 1) (v % 256)

/-- Parameters of smp_conf_general.c main: the expected change count is
always written; every other parameter carries the do_xxx flag set by its
command-line option together with the value parsed for it (the value is
ignored when the flag is false, exactly as in the source). -/
structure CgParams where
  expected_cc : Nat
  do_itdefoi : Bool
  itdefoi_val : Nat
  do_connect : Bool
  connect_val : Nat
  do_inactivity : Bool
  inactivity_val : Nat
  do_nexus : Bool
  nexus_val : Nat
  do_open : Bool
  open_val : Nat
  do_pdt : Bool
  power_val : Nat
  do_reduced : Bool
  reduced_val : Nat
  do_ssp : Bool
  ssp_ctl : Nat

/-- A C-style guarded mutation `if (do_x) then writes`: apply the write
when the flag is set, leave the buffer unchanged otherwise. -/
def condWrite (b : Bool) (f : List Nat → List Nat) (buf : List Nat) : List Nat :=
  if b then f buf else buf

/-- smp_conf_general.c lines 168-170 and 356-388: the CONFIGURE GENERAL
request frame.  The initial array is 24 bytes starting 0x40, code, 0, 4;
the expected change count is stored big-endian at offset 4; each supplied
optional parameter ORs its modifier bit into byte 8 and stores its value
field (single-byte stores truncate to 8 bits as the C unsigned char
assignments do). -/
def buildCgRequest (p : CgParams) : List Nat :=
  let req : List Nat :=
    [SMP_FRAME_TYPE_REQ, SMP_FN_CONFIG_GENERAL, 0, 4,
     0, 0, 0, 0, 0, 0, 0, 0, 0, 0, 0, 0, 0, 0, 0, 0, 0, 0, 0, 0]
  let req := sg_put_unaligned_be16 p.expected_cc req 4
  let req := condWrite p.do_itdefoi
    (fun r => (r.set 8 (r.getD 8 0 ||| 0x80)).set 9 (p.itdefoi_val % 256)) req
  let req := condWrite p.do_connect
    (fun r => sg_put_unaligned_be16 p.connect_val
      (r.set 8 (r.getD 8 0 ||| 0x2)) 12) req
  let req := condWrite p.do_inactivity
    (fun r => sg_put_unaligned_be16 p.inactivity_val
      (r.set 8 (r.getD 8 0 ||| 0x1)) 10) req
  let req := condWrite p.do_nexus
    (fun r => sg_put_unaligned_be16 p.nexus_val
      (r.set 8 (r.getD 8 0 ||| 0x4)) 14) req
  let req := condWrite p.do_open
    (fun r => sg_put_unaligned_be16 p.open_val
      (r.set 8 (r.getD 8 0 ||| 0x10)) 18) req
  let req := condWrite p.do_pdt
    (fun r => (r.set 8 (r.getD 8 0 ||| 0x20)).set 17 (p.power_val % 256)) req
  let req := condWrite p.do_reduced
    (fun r => (r.set 8 (r.getD 8 0 ||| 0x8)).set 16 (p.reduced_val % 256)) req
  let req := condWrite p.do_ssp
    (fun r => sg_put_unaligned_be16 p.ssp_ctl
      (r.set 8 (r.getD 8 0 ||| 0x40)) 6) req
  req

/-- The shape of a CONFIGURE GENERAL request frame: fixed bytes 0-3
(marker, code, reserved, request length 4 dwords), sixteen variable bytes
4-19, and four reserved zero bytes 20-23. -/
def cgFrame (a4 a5 a6 a7 a8 a9 a10 a11 a12 a13 a14 a15 a16 a17 a18 a19 : Nat) :
    List Nat :=
  [SMP_FRAME_TYPE_REQ, SMP_FN_CONFIG_GENERAL, 0, 4, a4, a5, a6, a7, a8, a9,
   a10, a11, a12, a13, a14, a15, a16, a17, a18, a19, 0, 0, 0, 0]

/-- smp_discover.c do_discover line 406: `memset(resp, 0, max_resp_len)` -
the response buffer starts as max_resp_len zero bytes before the exchange. -/
def do_discover_buffer_init (max_resp_len : Nat) : List Nat :=
  List.replicate max_resp_len 0

/-- Modelled from the spec: the transport boundary of section 6 (smp_send_req,
not under src/) writes the wire bytes it received into the first
act_response_len positions of the caller's buffer and touches nothing
beyond them.  `s` is the index of the first buffer cell of `buf`. -/
def transportFillFrom (wire : Nat → Nat) (act : Nat) :
    Nat → List Nat → List Nat
  | _, [] => []
  | s, v :: rest =>
    (if s < act then wire s else v) :: transportFillFrom wire act (s + 1) rest

/-- Buffer contents after the transport has written `act` bytes into a
buffer prepared by do_discover. -/
def transportFill (wire : Nat → Nat) (act : Nat) (buf : List Nat) : List Nat :=
  transportFillFrom wire act 0 buf

/-- Membership in an if-then-else list decomposes into the branch taken. -/
theorem mem_ite_elim {α : Type} {x : α} {c : Prop} [Decidable c]
    {l1 l2 : List α} (h : x ∈ (if c then l1 else l2)) :
    (c ∧ x ∈ l1) ∨ (¬c ∧ x ∈ l2) := by
  by_cases hc : c
  · simp only [if_pos hc] at h; exact Or.inl ⟨hc, h⟩
  · simp only [if_neg hc] at h; exact Or.inr ⟨hc, h⟩

/-- Indexing a mapped range at an in-bounds position. -/
theorem getD_range_map {α : Type} (f : Nat → α) (n k : Nat) (d : α)
    (hk : k < n) : ((List.range n).map f).getD k d = f k := by
  rw [List.getD_eq_getElem?_getD, List.getElem?_map, List.getElem?_range hk]
  rfl

/-- Every name emitted by the header block of print_single is ungated. -/
theorem psHead_names_sub (rp : ByteBuf) (just1 : Bool) (brief verbose : Nat) :
    ∀ x ∈ (psHead rp just1 brief verbose).map Prod.fst, x ∈ psBaseNames := by
  intro x hx
  unfold psHead at hx
  split_ifs at hx <;>
    simp only [List.map_append, List.map_cons, List.map_nil, List.append_nil,
      List.nil_append] at hx <;>
    exact (by decide : _ ⊆ psBaseNames) hx

/-- Every name emitted by the middle block of print_single is ungated. -/
theorem psMid_names_sub (rp : ByteBuf) (len : Nat) (brief verbose : Nat) :
    ∀ x ∈ (psMid rp len brief verbose).map Prod.fst, x ∈ psBaseNames := by
  intro x hx
  unfold psMid at hx
  split_ifs at hx <;>
    simp only [List.map_append, List.map_cons, List.map_nil, List.append_nil,
      List.nil_append] at hx <;>
    exact (by decide : _ ⊆ psBaseNames) hx

/-- Every name emitted by the connector block of print_single is ungated. -/
theorem psConn_names_sub (rp : ByteBuf) :
    ∀ x ∈ (psConn rp).map Prod.fst, x ∈ psBaseNames := by
  intro x hx
  unfold psConn at hx
  split_ifs at hx <;>
    simp only [List.map_cons, List.map_nil] at hx <;>
    exact (by decide : _ ⊆ psBaseNames) hx

/-- Names of the len-above-59 block of print_single. -/
theorem psB59_names_eq (rp : ByteBuf) :
    (psB59 rp).map Prod.fst =
      ["attached device name", "requested inside ZPSDS changed by expander",
       "inside ZPSDS persistent", "requested inside ZPSDS",
       "zone group persistent", "inside ZPSDS", "zoning enabled",
       "zone group"] := rfl

/-- Names of the len-at-least-76 block of print_single. -/
theorem psB76_names_eq (rp : ByteBuf) :
    (psB76 rp).map Prod.fst =
      ["self-configuration status", "self-configuration levels completed",
       "self-configuration sas address", "programmed phy capabilities",
       "current phy capabilities", "attached phy capabilities"] := rfl

/-- Every name emitted by the trailing blocks of print_single carries its
length guard in discGuardedFields, and emission implies the guard held. -/
theorem psTail_names (rp : ByteBuf) (len : Nat) :
    ∀ x ∈ (psTail rp len).map Prod.fst,
      ∃ t, (t, x) ∈ discGuardedFields ∧ t < len := by
  intro x hx
  unfold psTail at hx
  simp only [List.map_append, List.mem_append,
    apply_ite (List.map Prod.fst), List.map_cons, List.map_nil] at hx
  rcases hx with ((((h | h) | h) | h) | h) | h
  · rcases mem_ite_elim h with ⟨hc, hm⟩ | ⟨-, hm⟩
    · exact ⟨95, (by decide : ∀ y ∈ ["reason", "negotiated physical link rate",
        "optical mode enabled", "negotiated SSC", "hardware muxing supported"],
        (95, y) ∈ discGuardedFields) x hm, by omega⟩
    · exact absurd hm (List.not_mem_nil x)
  · rcases mem_ite_elim h with ⟨hc, hm⟩ | ⟨-, hm⟩
    · exact ⟨107, (by decide : ∀ y ∈ ["default inside ZPSDS persistent",
        "default requested inside ZPSDS", "default zone group persistent",
        "default zoning enabled", "default zone group",
        "saved inside ZPSDS persistent", "saved requested inside ZPSDS",
        "saved zone group persistent", "saved zoning enabled",
        "saved zone group", "shadow inside ZPSDS persistent",
        "shadow requested inside ZPSDS", "shadow zone group persistent",
        "shadow zoning enabled", "shadow zone group"],
        (107, y) ∈ discGuardedFields) x hm, by omega⟩
    · exact absurd hm (List.not_mem_nil x)
  · rcases mem_ite_elim h with ⟨hc, hm⟩ | ⟨-, hm⟩
    · exact ⟨109, (by decide : ∀ y ∈ ["device slot number",
        "device slot group number"], (109, y) ∈ discGuardedFields) x hm,
        by omega⟩
    · exact absurd hm (List.not_mem_nil x)
  · rcases mem_ite_elim h with ⟨hc, hm⟩ | ⟨-, hm⟩
    · exact ⟨115, (by decide : ∀ y ∈ ["device slot group output connector"],
        (115, y) ∈ discGuardedFields) x hm, by omega⟩
    · exact absurd hm (List.not_mem_nil x)
  · rcases mem_ite_elim h with ⟨hc, hm⟩ | ⟨-, hm⟩
    · exact ⟨117, (by decide : ∀ y ∈ ["STP buffer size"],
        (117, y) ∈ discGuardedFields) x hm, by omega⟩
    · exact absurd hm (List.not_mem_nil x)
  · rcases mem_ite_elim h with ⟨hc, hm⟩ | ⟨-, hm⟩
    · exact ⟨118, (by decide : ∀ y ∈ ["Buffered phy burst size"],
        (118, y) ∈ discGuardedFields) x hm, by omega⟩
    · exact absurd hm (List.not_mem_nil x)

/-- Every name print_single emits is either ungated (psBaseNames) or comes
from a block whose length guard held when it was emitted. -/
theorem printSingle_names (rp : ByteBuf) (len : Nat) (just1 : Bool)
    (brief verbose : Nat) :
    ∀ x ∈ (printSingle rp len just1 brief verbose).map Prod.fst,
      x ∈ psBaseNames ∨ ∃ t, (t, x) ∈ discGuardedFields ∧ t < len := by
  intro x hx
  unfold printSingle at hx
  simp only [List.map_append, List.mem_append,
    apply_ite (List.map Prod.fst), List.map_cons, List.map_nil] at hx
  rcases hx with h | h
  · exact Or.inl (psHead_names_sub rp just1 brief verbose x h)
  · rcases mem_ite_elim h with ⟨-, hm⟩ | ⟨-, hm⟩
    · exact absurd hm (List.not_mem_nil x)
    · simp only [List.mem_append] at hm
      rcases hm with hmid | hrest
      · exact Or.inl (psMid_names_sub rp len brief verbose x hmid)
      · rcases mem_ite_elim hrest with ⟨-, hzb⟩ | ⟨-, hfull⟩
        · rcases mem_ite_elim hzb with ⟨hc, hm⟩ | ⟨-, hm⟩
          · have hx2 : x = "zone group" := by simpa using hm
            subst hx2
            exact Or.inr ⟨59, by decide, by omega⟩
          · exact absurd hm (List.not_mem_nil x)
        · simp only [List.mem_append] at hfull
          rcases hfull with hconn | h59
          · exact Or.inl (psConn_names_sub rp x hconn)
          · rcases mem_ite_elim h59 with ⟨hc59, hm⟩ | ⟨-, htail⟩
            · simp only [List.mem_append] at hm
              rcases hm with h59m | h76
              · rw [psB59_names_eq] at h59m
                exact Or.inr ⟨59, (by decide : ∀ y ∈ ["attached device name",
                  "requested inside ZPSDS changed by expander",
                  "inside ZPSDS persistent", "requested inside ZPSDS",
                  "zone group persistent", "inside ZPSDS", "zoning enabled",
                  "zone group"], (59, y) ∈ discGuardedFields) x h59m,
                  by omega⟩
              · rcases mem_ite_elim h76 with ⟨-, hm⟩ | ⟨h76n, hm⟩
                · exact absurd hm (List.not_mem_nil x)
                · simp only [List.mem_append] at hm
                  rcases hm with h76m | htailm
                  · rw [psB76_names_eq] at h76m
                    exact Or.inr ⟨75, (by decide : ∀ y ∈
                      ["self-configuration status",
                       "self-configuration levels completed",
                       "self-configuration sas address",
                       "programmed phy capabilities",
                       "current phy capabilities",
                       "attached phy capabilities"],
                      (75, y) ∈ discGuardedFields) x h76m, by omega⟩
                  · exact Or.inr (psTail_names rp len x htailm)
            · exact Or.inr (psTail_names rp len x htail)

/-- No length-guarded print_single field name is also an ungated name. -/
theorem guarded_names_not_base :
    ∀ p ∈ discGuardedFields, p.2 ∉ psBaseNames := by decide

/-- Each guarded print_single field name carries a unique threshold. -/
theorem guarded_thresholds_unique :
    ∀ p ∈ discGuardedFields, ∀ q ∈ discGuardedFields,
      p.2 = q.2 → p.1 = q.1 := by decide

/-- Claim C3: in the DISCOVER field decoder (print_single), every field
guarded by a minimum-length threshold is emitted only if the resolved byte
length exceeds that threshold; in particular, at resolved length 40 every
guarded field (all thresholds exceed 40, e.g. the zone-group fields) is
omitted while fields gated at or below 40 - here the expander SAS address,
whose value is fetched only above 23 bytes - are still emitted. -/
theorem c3_guarded_fields :
    (∀ (rp : ByteBuf) (len : Nat) (just1 : Bool) (brief verbose : Nat)
       (t : Nat) (name : String), (t, name) ∈ discGuardedFields →
       name ∈ (printSingle rp len just1 brief verbose).map Prod.fst →
       t < len)
    ∧ (∀ p ∈ discGuardedFields,
        p.2 ∉ (printSingle (fun i => if i = 3 then 9 else if i = 16 then 80 else 0)
          40 true 0 0).map Prod.fst)
    ∧ "zone group" ∉ (printSingle (fun i => if i = 3 then 9 else if i = 16 then 80 else 0)
        40 true 0 0).map Prod.fst
    ∧ ("SAS address", 5764607523034234880)
        ∈ printSingle (fun i => if i = 3 then 9 else if i = 16 then 80 else 0) 40 true 0 0
    ∧ "routing attribute"
        ∈ (printSingle (fun i => if i = 3 then 9 else if i = 16 then 80 else 0)
          40 true 0 0).map Prod.fst := by
  refine ⟨?_, by decide, by decide, by decide, by decide⟩
  intro rp len just1 brief verbose t name hg hm
  rcases printSingle_names rp len just1 brief verbose name hm with hb | ⟨t', hg', hlt⟩
  · exact absurd hb (guarded_names_not_base (t, name) hg)
  · have := guarded_thresholds_unique (t, name) hg (t', name) hg' rfl
    omega

/-- Witness for C3: at resolved length 60 the zone-group field (threshold
59) is emitted, and the theorem yields 59 < 60. -/
theorem c3_witness : 59 < 60 :=
  c3_guarded_fields.1 (fun i => if i = 3 then 14 else 0) 60 true 0 0 59
    "zone group" (by decide) (by decide)

/-- Index computation for the transport write model: positions below the
written count read the wire byte, the rest keep the buffer's value. -/
theorem transportFillFrom_getD (wire : Nat → Nat) (act : Nat) :
    ∀ (buf : List Nat) (s i : Nat), i < buf.length →
      (transportFillFrom wire act s buf).getD i 1
        = if s + i < act then wire (s + i) else buf.getD i 1 := by
  intro buf
  induction buf with
  | nil => intro s i h; simp at h
  | cons v rest ih =>
    intro s i h
    cases i with
    | zero => simp [transportFillFrom]
    | succ j =>
      have hj : j < rest.length := by simpa using h
      have := ih (s + 1) j hj
      simp only [transportFillFrom, List.getD_cons_succ]
      rw [this]
      have harith : s + 1 + j = s + (j + 1) := by omega
      rw [harith]

/-- Claim C9: do_discover zero-fills the whole max_resp_len response buffer
before the exchange, so after the transport writes its act bytes every
buffer position at or beyond the written data still reads as zero. -/
theorem c9_zero_fill :
    ∀ (max_resp_len act i : Nat) (wire : Nat → Nat),
      act ≤ i → i < max_resp_len →
      (transportFill wire act (do_discover_buffer_init max_resp_len)).getD i 1
        = 0 := by
  intro maxLen act i wire hai him
  unfold transportFill do_discover_buffer_init
  rw [transportFillFrom_getD wire act _ 0 i (by simpa using him)]
  rw [if_neg (by omega)]
  simp only [List.getD_eq_getElem?_getD, List.getElem?_replicate]
  rw [if_pos him]
  rfl

/-- Witness for C9: an 8-byte buffer with 3 transport-written bytes reads 0
at position 5. -/
theorem c9_witness :
    (transportFill (fun _ => 9) 3 (do_discover_buffer_init 8)).getD 5 1 = 0 :=
  c9_zero_fill 8 3 5 (fun _ => 9) (by decide) (by decide)

/-- Claim C10: the REPORT GENERAL decoder emits the enclosure logical
identifier exactly when response byte 12 is nonzero, independently of the
resolved response length; when byte 12 is zero the identifier is absent
from the report (at most an explicit emptiness marker is printed). -/
theorem c10_enclosure_id :
    ∀ (resp : ByteBuf) (len : Nat) (verbose : Bool),
      ("enclosure logical identifier"
          ∈ (rgDecodeFields resp len verbose).map Prod.fst)
        ↔ resp 12 ≠ 0 := by
  intro resp len vb
  constructor
  · intro hm h0
    simp only [rgDecodeFields, rgBaseFields, rgEnclFields, rgGatedFields, h0,
      List.map_append, List.mem_append, apply_ite (List.map Prod.fst),
      List.map_cons, List.map_nil] at hm
    rcases hm with (hm | hm) | hm
    · exact absurd hm (by decide)
    · rcases hm with hm | hm
      · rcases mem_ite_elim hm with ⟨hc, -⟩ | ⟨-, hm⟩
        · exact hc rfl
        · exact absurd hm (List.not_mem_nil _)
      · rcases mem_ite_elim hm with ⟨-, hm⟩ | ⟨-, hm⟩
        · exact absurd hm (by decide)
        · exact absurd hm (List.not_mem_nil _)
    · rcases mem_ite_elim hm with ⟨-, hm⟩ | ⟨-, hm⟩
      · exact absurd hm (List.not_mem_nil _)
      · simp only [List.map_append, List.mem_append] at hm
        rcases hm with hm | hm
        · exact absurd hm (by decide)
        · rcases mem_ite_elim hm with ⟨-, hm⟩ | ⟨-, hm⟩
          · exact absurd hm (List.not_mem_nil _)
          · simp only [List.map_append, List.mem_append] at hm
            rcases hm with hm | hm
            · exact absurd hm (by decide)
            · rcases mem_ite_elim hm with ⟨-, hm⟩ | ⟨-, hm⟩
              · exact absurd hm (List.not_mem_nil _)
              · simp only [List.map_append, List.mem_append] at hm
                rcases hm with hm | hm
                · exact absurd hm (by decide)
                · rcases mem_ite_elim hm with ⟨-, hm⟩ | ⟨-, hm⟩
                  · exact absurd hm (List.not_mem_nil _)
                  · simp only [List.map_append, List.mem_append] at hm
                    rcases hm with hm | hm
                    · exact absurd hm (by decide)
                    · rcases mem_ite_elim hm with ⟨-, hm⟩ | ⟨-, hm⟩
                      · exact absurd hm (List.not_mem_nil _)
                      · simp only [List.map_append, List.mem_append] at hm
                        rcases hm with hm | hm
                        · exact absurd hm (by decide)
                        · rcases mem_ite_elim hm with ⟨-, hm⟩ | ⟨-, hm⟩
                          · exact absurd hm (List.not_mem_nil _)
                          · simp only [List.map_append, List.mem_append] at hm
                            rcases hm with hm | hm
                            · exact absurd hm (by decide)
                            · rcases mem_ite_elim hm with ⟨-, hm⟩ | ⟨-, hm⟩
                              · exact absurd hm (List.not_mem_nil _)
                              · exact absurd hm (by decide)
  · intro h12
    simp only [rgDecodeFields, rgEnclFields, if_pos h12, List.map_append,
      List.mem_append, List.map_cons]
    exact Or.inl (Or.inr (by simp))

/-- Witness for C10: byte 12 nonzero forces the identifier's emission even
at a tiny resolved length. -/
theorem c10_witness :
    "enclosure logical identifier"
      ∈ (rgDecodeFields (fun i => if i = 12 then 7 else 0) 8 false).map
        Prod.fst :=
  (c10_enclosure_id (fun i => if i = 12 then 7 else 0) 8 false).mpr (by decide)

/-- Counterexample for C1 as stated: with declared length 0 and a nonzero
function-result byte (byte 2 = 1), the claim demands that the declared zero
length be used as-is (resolved 4 + 4*0 = 4) without consulting the table;
smp_rep_general.c nevertheless consults the table, resolving 36 when the
table maps the echoed function code to 8 dwords and 4 when it maps it to
0, so the resolution depends on the table. -/
theorem c1_counterexample :
    rgResolveLen (fun _ => 8) (fun i => if i = 2 then 1 else 0) = 36
    ∧ rgResolveLen (fun _ => 0) (fun i => if i = 2 then 1 else 0) = 4
    ∧ rgResolveLen (fun _ => 8) (fun i => if i = 2 then 1 else 0) ≠ 4 := by
  decide

/-- Claim C1, amended: CONFIGURE GENERAL, DISCOVER and REPORT BROADCAST
consult the default-length table when and only when the declared length
(byte 3) is zero and the function-result byte (byte 2) is zero, using the
declared length as-is otherwise; REPORT GENERAL (smp_rep_general.c)
consults the table whenever the declared length is zero, regardless of the
function-result byte. -/
theorem c1_table_consultation :
    ∀ (defTbl : Nat → Int) (resp : ByteBuf),
      (¬(resp 3 = 0 ∧ resp 2 = 0) →
        cgDeducedLen defTbl resp = 4 + resp 3 * 4
        ∧ discDeducedLen defTbl resp = 4 + resp 3 * 4
        ∧ rbDeducedLen defTbl resp = 4 + resp 3 * 4)
      ∧ (resp 3 = 0 ∧ resp 2 = 0 →
        cgDeducedLen defTbl resp
          = 4 + (if defTbl (resp 1) < 0 then 0 else (defTbl (resp 1)).toNat) * 4
        ∧ discDeducedLen defTbl resp
          = 4 + (if defTbl (resp 1) < 0 then 0 else (defTbl (resp 1)).toNat) * 4
        ∧ rbDeducedLen defTbl resp
          = 4 + (if defTbl (resp 1) < 0 then 0 else (defTbl (resp 1)).toNat) * 4)
      ∧ (resp 3 = 0 →
        rgResolveLen defTbl resp
          = 4 + (if defTbl (resp 1) < 0 then 0 else (defTbl (resp 1)).toNat) * 4)
      ∧ (resp 3 ≠ 0 → rgResolveLen defTbl resp = 4 + resp 3 * 4) := by
  intro defTbl resp
  refine ⟨fun h => ?_, fun h => ?_, fun h => ?_, fun h => ?_⟩
  · rw [cgDeducedLen, discDeducedLen, rbDeducedLen]
    simp only [if_neg h]
    exact ⟨trivial, trivial, trivial⟩
  · rw [cgDeducedLen, discDeducedLen, rbDeducedLen]
    simp only [if_pos h]
    exact ⟨trivial, trivial, trivial⟩
  · rw [rgResolveLen]
    simp only [if_pos h]
  · rw [rgResolveLen]
    simp only [if_neg h]

/-- Witness for C1: a response with declared length 0 and function result 1
resolves to 4 bytes in smp_conf_general.c (table not consulted) but to 36
bytes in smp_rep_general.c under a table mapping the code to 8 dwords. -/
theorem c1_witness :
    cgDeducedLen (fun _ => 8) (fun i => if i = 2 then 1 else 0) = 4
    ∧ rgResolveLen (fun _ => 8) (fun i => if i = 2 then 1 else 0) = 36 := by
  constructor
  · exact ((c1_table_consultation (fun _ => 8)
      (fun i => if i = 2 then 1 else 0)).1 (by decide)).1
  · exact ((c1_table_consultation (fun _ => 8)
      (fun i => if i = 2 then 1 else 0)).2.2.1 (by decide)).trans (by decide)

/-- Counterexample for C2 as stated: computed length 24 (declared 5 dwords)
with actual transport length 10 must resolve to 10 per the claim; the
REPORT GENERAL utility instead keeps 24 - its hex/raw dump emits 24 bytes
and no clamping is performed anywhere in smp_rep_general.c. -/
theorem c2_counterexample :
    (rgMain (fun _ => 0) 10 (fun i => if i = 3 then 5 else 0)
        true false false false).rawLen ≠ some 10
    ∧ (rgMain (fun _ => 0) 10 (fun i => if i = 3 then 5 else 0)
        true false false false).rawLen = some 24 := by
  decide

/-- Claim C2, amended: CONFIGURE GENERAL, DISCOVER and REPORT BROADCAST
clamp the resolved length to a known smaller actual transport length (so
computed 24 with actual 10 resolves to 10); REPORT GENERAL uses the
deduced length as-is, independent of the actual transport count. -/
theorem c2_clamping :
    ∀ (defTbl : Nat → Int) (resp : ByteBuf) (act : Int),
      (0 ≤ act → (cgDeducedLen defTbl resp : Int) > act →
        cgResolveLen defTbl resp act = act.toNat)
      ∧ (0 ≤ act → (discDeducedLen defTbl resp : Int) > act →
        discResolveLen defTbl resp act = act.toNat)
      ∧ (0 ≤ act → (rbDeducedLen defTbl resp : Int) > act →
        rbResolveLen defTbl resp act = act.toNat)
      ∧ (∀ hx rw chg vb : Bool, ¬(0 ≤ act ∧ act < 4) → (hx || rw) = true →
        (rgMain defTbl act resp hx rw chg vb).rawLen
          = some (rgResolveLen defTbl resp)) := by
  intro defTbl resp act
  refine ⟨fun h1 h2 => ?_, fun h1 h2 => ?_, fun h1 h2 => ?_,
    fun hx rw chg vb hact hor => ?_⟩
  · rw [cgResolveLen]; simp only [if_pos (And.intro h1 h2)]
  · rw [discResolveLen]; simp only [if_pos (And.intro h1 h2)]
  · rw [rbResolveLen]; simp only [if_pos (And.intro h1 h2)]
  · rw [rgMain]
    simp only [if_neg hact, hor, if_true]

/-- Witness for C2: declared 5 dwords (24 bytes) with actual transport
length 10 resolves to 10 in smp_conf_general.c. -/
theorem c2_witness :
    cgResolveLen (fun _ => 0) (fun i => if i = 3 then 5 else 0) 10 = 10 :=
  ((c2_clamping (fun _ => 0) (fun i => if i = 3 then 5 else 0) 10).1
    (by decide) (by decide)).trans (by decide)

/-- Claim C4: in all four utilities, a known actual transport length below
4 bytes fails with the malformed-response category before any response
byte is inspected - the outcome is the same for every response buffer, no
field or raw dump is produced, and no descriptor is decoded. -/
theorem c4_short_response :
    ∀ (defTbl : Nat → Int) (act : Int) (resp : ByteBuf)
      (hx rw chg vb : Bool), 0 ≤ act → act < 4 →
      rgMain defTbl act resp hx rw chg vb = ⟨SMP_LIB_CAT_MALFORMED, none, []⟩
      ∧ cgMain defTbl act resp hx rw = ⟨SMP_LIB_CAT_MALFORMED, none, []⟩
      ∧ do_discover_resp defTbl act resp hx rw = -4 - SMP_LIB_CAT_MALFORMED
      ∧ rbMain defTbl act resp hx rw vb
          = ⟨SMP_LIB_CAT_MALFORMED, none, [], []⟩ := by
  intro defTbl act resp hx rw chg vb h1 h2
  have h : 0 ≤ act ∧ act < 4 := ⟨h1, h2⟩
  refine ⟨?_, ?_, ?_, ?_⟩
  · rw [rgMain]; simp only [if_pos h]
  · rw [cgMain]; simp only [if_pos h]
  · rw [do_discover_resp]; simp only [if_pos h]
  · rw [rbMain]; simp only [if_pos h]

/-- Witness for C4: actual length 2 with an arbitrary nonzero payload fails
malformed in all four utilities. -/
theorem c4_witness :
    rgMain (fun _ => 9) 2 (fun _ => 17) false false false false
        = ⟨SMP_LIB_CAT_MALFORMED, none, []⟩
    ∧ cgMain (fun _ => 9) 2 (fun _ => 17) false false
        = ⟨SMP_LIB_CAT_MALFORMED, none, []⟩
    ∧ do_discover_resp (fun _ => 9) 2 (fun _ => 17) false false
        = -4 - SMP_LIB_CAT_MALFORMED
    ∧ rbMain (fun _ => 9) 2 (fun _ => 17) false false false
        = ⟨SMP_LIB_CAT_MALFORMED, none, [], []⟩ :=
  c4_short_response (fun _ => 9) 2 (fun _ => 17) false false false false
    (by decide) (by decide)

/-- Enumeration loop run to a NO_PHY result: with every phy below `m`
answering successfully and phy `m` answering NO_PHY, the loop reports each
phy from `k` up to `m` and stops with ret = 0. -/
theorem doMultipleAux_no_phy (oracle : Nat → Int) :
    ∀ (n k : Nat) (m : Nat) (r : Int) (evs : List PhyEvent),
      k ≤ m → m < k + n →
      (∀ j, k ≤ j → j < m → 0 ≤ oracle j) →
      oracle m = -4 - (SMP_FRES_NO_PHY : Int) →
      doMultipleAux oracle k n r evs
        = (0, evs ++ (List.range' k (m - k)).map PhyEvent.reported) := by
  intro n
  induction n with
  | zero => intro k m r evs h1 h2 _ _; omega
  | succ n ih =>
    intro k m r evs h1 h2 hpos hm
    by_cases hkm : k = m
    · subst hkm
      rw [doMultipleAux]
      rw [hm]
      norm_num [SMP_FRES_NO_PHY, SMP_FRES_PHY_VACANT]
    · have hklt : k < m := lt_of_le_of_ne h1 hkm
      have h0 : 0 ≤ oracle k := hpos k le_rfl hklt
      rw [doMultipleAux]
      rw [if_neg (not_lt.mpr h0)]
      rw [if_neg (by norm_num [SMP_FRES_NO_PHY]),
        if_neg (by norm_num [SMP_FRES_PHY_VACANT]), if_neg (by simp)]
      rw [ih (k + 1) m 0 (evs ++ [PhyEvent.reported k]) (by omega) (by omega)
        (fun j hj1 hj2 => hpos j (by omega) hj2) hm]
      have hr : List.range' k (m - k)
          = k :: List.range' (k + 1) (m - (k + 1)) := by
        have he : m - k = (m - (k + 1)) + 1 := by omega
        rw [he, List.range'_succ]
      rw [hr]
      simp

/-- Enumeration loop with one vacant phy `v` below the NO_PHY index `m`:
the vacant phy is reported inaccessible and the loop continues, still
terminating successfully at `m`. -/
theorem doMultipleAux_vacant (oracle : Nat → Int) (v : Nat) :
    ∀ (n k : Nat) (m : Nat) (r : Int) (evs : List PhyEvent),
      k ≤ m → m < k + n →
      (∀ j, k ≤ j → j < m → j ≠ v → 0 ≤ oracle j) →
      oracle v = -4 - (SMP_FRES_PHY_VACANT : Int) →
      oracle m = -4 - (SMP_FRES_NO_PHY : Int) →
      v ≠ m →
      doMultipleAux oracle k n r evs
        = (0, evs ++ (List.range' k (m - k)).map fun j =>
            if j = v then PhyEvent.inaccessible j else PhyEvent.reported j) := by
  intro n
  induction n with
  | zero => intro k m r evs h1 h2 _ _ _ _; omega
  | succ n ih =>
    intro k m r evs h1 h2 hpos hv hm hvm
    by_cases hkm : k = m
    · subst hkm
      rw [doMultipleAux]
      rw [hm]
      norm_num [SMP_FRES_NO_PHY, SMP_FRES_PHY_VACANT]
    · have hklt : k < m := lt_of_le_of_ne h1 hkm
      have hr : List.range' k (m - k)
          = k :: List.range' (k + 1) (m - (k + 1)) := by
        have he : m - k = (m - (k + 1)) + 1 := by omega
        rw [he, List.range'_succ]
      by_cases hkv : k = v
      · subst hkv
        rw [doMultipleAux]
        rw [hv]
        norm_num [SMP_FRES_NO_PHY, SMP_FRES_PHY_VACANT]
        rw [ih (k + 1) m _ (evs ++ [PhyEvent.inaccessible k]) (by omega)
          (by omega) (fun j hj1 hj2 hj3 => hpos j (by omega) hj2 hj3) hv hm hvm]
        rw [hr]
        simp
      · have h0 : 0 ≤ oracle k := hpos k le_rfl hklt hkv
        rw [doMultipleAux]
        rw [if_neg (not_lt.mpr h0)]
        rw [if_neg (by norm_num [SMP_FRES_NO_PHY]),
          if_neg (by norm_num [SMP_FRES_PHY_VACANT]), if_neg (by simp)]
        rw [ih (k + 1) m 0 (evs ++ [PhyEvent.reported k]) (by omega) (by omega)
          (fun j hj1 hj2 hj3 => hpos j (by omega) hj2 hj3) hv hm hvm]
        rw [hr]
        simp [hkv]

/-- Claim C5: in multi-phy DISCOVER enumeration, a NO_PHY ("no such phy")
function result at phy index m terminates the loop with success (exit
status 0) after all earlier phys were reported, and a PHY_VACANT result at
some index v reports that phy as inaccessible and continues with the next
phy instead of aborting. -/
theorem c5_enumeration :
    ∀ (oracle : Nat → Int) (num m v : Nat),
      (m < num → (∀ j, j < m → 0 ≤ oracle j) →
        oracle m = -4 - (SMP_FRES_NO_PHY : Int) →
        doMultiple oracle 0 num
          = (0, (List.range' 0 m).map PhyEvent.reported))
      ∧ (m < num → v < m →
        (∀ j, j < m → j ≠ v → 0 ≤ oracle j) →
        oracle v = -4 - (SMP_FRES_PHY_VACANT : Int) →
        oracle m = -4 - (SMP_FRES_NO_PHY : Int) →
        doMultiple oracle 0 num
          = (0, (List.range' 0 m).map fun j =>
              if j = v then PhyEvent.inaccessible j else PhyEvent.reported j)) := by
  intro oracle num m v
  constructor
  · intro h1 h2 h3
    rw [doMultiple]
    rw [doMultipleAux_no_phy oracle (num - 0) 0 m 0 [] (by omega) (by omega)
      (fun j _ hj2 => h2 j hj2) h3]
    simp
  · intro h1 h2 h3 h4 h5
    rw [doMultiple]
    rw [doMultipleAux_vacant oracle v (num - 0) 0 m 0 [] (by omega) (by omega)
      (fun j _ hj2 hj3 => h3 j hj2 hj3) h4 h5 (by omega)]
    simp

/-- Witness for C5: five good phys then NO_PHY at index 5 yields success
with phys 0-4 reported; with phy 2 vacant instead, phy 2 is reported
inaccessible and enumeration still ends successfully at index 5. -/
theorem c5_witness :
    doMultiple (fun k => if k < 5 then 100 else -20) 0 254
      = (0, (List.range' 0 5).map PhyEvent.reported)
    ∧ doMultiple (fun k => if k = 2 then -26 else if k < 5 then 100 else -20)
        0 254
      = (0, (List.range' 0 5).map fun j =>
          if j = 2 then PhyEvent.inaccessible j else PhyEvent.reported j) :=
  ⟨(c5_enumeration (fun k => if k < 5 then 100 else -20) 254 5 0).1
      (by decide) (by decide) (by decide),
   (c5_enumeration (fun k => if k = 2 then -26 else if k < 5 then 100 else -20)
      254 5 2).2 (by decide) (by decide) (by decide) (by decide) (by decide)⟩

/-- Claim C6: with hex or raw output requested, all four utilities still
validate the frame-type byte, the function-code echo and the
function-result byte, and the returned status reflects the failure: status
0 (or a non-negative length for do_discover) exactly when the frame is
valid and the function result is zero; a nonzero function result on a
well-formed frame becomes the status; a frame-type or function-code
mismatch with zero function result yields the malformed category. -/
theorem c6_hex_raw_validation :
    ∀ (defTbl : Nat → Int) (act : Int) (resp : ByteBuf) (hx rw chg vb : Bool),
      (hx || rw) = true → ¬(0 ≤ act ∧ act < 4) →
      (((rgMain defTbl act resp hx rw chg vb).ret = 0
          ↔ resp 0 = SMP_FRAME_TYPE_RESP ∧ resp 1 = SMP_FN_REPORT_GENERAL
            ∧ resp 2 = 0)
        ∧ (resp 0 = SMP_FRAME_TYPE_RESP → resp 1 = SMP_FN_REPORT_GENERAL →
            resp 2 ≠ 0 →
            (rgMain defTbl act resp hx rw chg vb).ret = (resp 2 : Int))
        ∧ (resp 2 = 0 →
            ¬(resp 0 = SMP_FRAME_TYPE_RESP ∧ resp 1 = SMP_FN_REPORT_GENERAL) →
            (rgMain defTbl act resp hx rw chg vb).ret = SMP_LIB_CAT_MALFORMED))
      ∧ (((cgMain defTbl act resp hx rw).ret = 0
          ↔ resp 0 = SMP_FRAME_TYPE_RESP ∧ resp 1 = SMP_FN_CONFIG_GENERAL
            ∧ resp 2 = 0)
        ∧ (resp 0 = SMP_FRAME_TYPE_RESP → resp 1 = SMP_FN_CONFIG_GENERAL →
            resp 2 ≠ 0 →
            (cgMain defTbl act resp hx rw).ret = (resp 2 : Int))
        ∧ (resp 2 = 0 →
            ¬(resp 0 = SMP_FRAME_TYPE_RESP ∧ resp 1 = SMP_FN_CONFIG_GENERAL) →
            (cgMain defTbl act resp hx rw).ret = SMP_LIB_CAT_MALFORMED))
      ∧ ((0 ≤ do_discover_resp defTbl act resp hx rw
          ↔ resp 0 = SMP_FRAME_TYPE_RESP ∧ resp 1 = SMP_FN_DISCOVER
            ∧ resp 2 = 0)
        ∧ (resp 0 = SMP_FRAME_TYPE_RESP → resp 1 = SMP_FN_DISCOVER →
            resp 2 ≠ 0 →
            do_discover_resp defTbl act resp hx rw = -4 - (resp 2 : Int))
        ∧ (resp 2 = 0 →
            ¬(resp 0 = SMP_FRAME_TYPE_RESP ∧ resp 1 = SMP_FN_DISCOVER) →
            do_discover_resp defTbl act resp hx rw
              = -4 - SMP_LIB_CAT_MALFORMED))
      ∧ (((rbMain defTbl act resp hx rw vb).ret = 0
          ↔ resp 0 = SMP_FRAME_TYPE_RESP ∧ resp 1 = SMP_FN_REPORT_BROADCAST
            ∧ resp 2 = 0)
        ∧ (resp 0 = SMP_FRAME_TYPE_RESP → resp 1 = SMP_FN_REPORT_BROADCAST →
            resp 2 ≠ 0 →
            (rbMain defTbl act resp hx rw vb).ret = (resp 2 : Int))
        ∧ (resp 2 = 0 →
            ¬(resp 0 = SMP_FRAME_TYPE_RESP ∧ resp 1 = SMP_FN_REPORT_BROADCAST) →
            (rbMain defTbl act resp hx rw vb).ret
              = SMP_LIB_CAT_MALFORMED)) := by
  intro defTbl act resp hx rw chg vb hor hact
  have hrg : rgMain defTbl act resp hx rw chg vb
      = ⟨(if resp 2 ≠ 0 then (resp 2 : Int)
          else if resp 1 ≠ SMP_FN_REPORT_GENERAL then SMP_LIB_CAT_MALFORMED
          else if resp 0 ≠ SMP_FRAME_TYPE_RESP then SMP_LIB_CAT_MALFORMED
          else 0), some (rgResolveLen defTbl resp), []⟩ := by
    simp only [rgMain, if_neg hact, hor, eq_self_iff_true, if_true]
  have hcg : cgMain defTbl act resp hx rw
      = ⟨(if resp 0 ≠ SMP_FRAME_TYPE_RESP then SMP_LIB_CAT_MALFORMED
          else if resp 1 ≠ SMP_FN_CONFIG_GENERAL then SMP_LIB_CAT_MALFORMED
          else if resp 2 ≠ 0 then (resp 2 : Int) else 0),
         some (cgResolveLen defTbl resp act), []⟩ := by
    simp only [cgMain, if_neg hact, hor, eq_self_iff_true, if_true]
  have hdi : do_discover_resp defTbl act resp hx rw
      = (if resp 0 ≠ SMP_FRAME_TYPE_RESP then -4 - SMP_LIB_CAT_MALFORMED
         else if resp 1 ≠ SMP_FN_DISCOVER then -4 - SMP_LIB_CAT_MALFORMED
         else if resp 2 ≠ 0 then -4 - (resp 2 : Int)
         else (discResolveLen defTbl resp act : Int)) := by
    simp only [do_discover_resp, if_neg hact, hor, eq_self_iff_true, if_true]
  have hrb : rbMain defTbl act resp hx rw vb
      = ⟨(if resp 2 ≠ 0 then (resp 2 : Int)
          else if resp 1 ≠ SMP_FN_REPORT_BROADCAST then SMP_LIB_CAT_MALFORMED
          else if resp 0 ≠ SMP_FRAME_TYPE_RESP then SMP_LIB_CAT_MALFORMED
          else 0), some (rbResolveLen defTbl resp act), [], []⟩ := by
    simp only [rbMain, if_neg hact, hor, eq_self_iff_true, if_true]
  refine ⟨⟨?_, ?_, ?_⟩, ⟨?_, ?_, ?_⟩, ⟨?_, ?_, ?_⟩, ⟨?_, ?_, ?_⟩⟩
  · rw [hrg]; dsimp only
    split_ifs with h2 h1 h0 <;> simp_all [SMP_LIB_CAT_MALFORMED]
  · intro e0 e1 n2; rw [hrg]; dsimp only; simp [n2]
  · intro z2 hnm; rw [hrg]; dsimp only
    by_cases e1 : resp 1 = SMP_FN_REPORT_GENERAL
    · have e0 : resp 0 ≠ SMP_FRAME_TYPE_RESP := fun h => hnm ⟨h, e1⟩
      simp [z2, e1, e0]
    · simp [z2, e1]
  · rw [hcg]; dsimp only
    split_ifs with h0 h1 h2 <;> simp_all [SMP_LIB_CAT_MALFORMED]
  · intro e0 e1 n2; rw [hcg]; dsimp only; simp [e0, e1, n2]
  · intro z2 hnm; rw [hcg]; dsimp only
    by_cases e0 : resp 0 = SMP_FRAME_TYPE_RESP
    · have e1 : resp 1 ≠ SMP_FN_CONFIG_GENERAL := fun h => hnm ⟨e0, h⟩
      simp [e0, e1]
    · simp [e0]
  · rw [hdi]
    split_ifs with h0 h1 h2 <;> [skip; skip; skip; skip] <;>
      simp_all [SMP_LIB_CAT_MALFORMED] <;> omega
  · intro e0 e1 n2; rw [hdi]; simp [e0, e1, n2]
  · intro z2 hnm; rw [hdi]
    by_cases e0 : resp 0 = SMP_FRAME_TYPE_RESP
    · have e1 : resp 1 ≠ SMP_FN_DISCOVER := fun h => hnm ⟨e0, h⟩
      simp [e0, e1]
    · simp [e0]
  · rw [hrb]; dsimp only
    split_ifs with h2 h1 h0 <;> simp_all [SMP_LIB_CAT_MALFORMED]
  · intro e0 e1 n2; rw [hrb]; dsimp only; simp [n2]
  · intro z2 hnm; rw [hrb]; dsimp only
    by_cases e1 : resp 1 = SMP_FN_REPORT_BROADCAST
    · have e0 : resp 0 ≠ SMP_FRAME_TYPE_RESP := fun h => hnm ⟨h, e1⟩
      simp [z2, e1, e0]
    · simp [z2, e1]

/-- Witness for C6: in hex mode, a well-formed REPORT GENERAL frame with
function result 5 makes the utility exit with status 5. -/
theorem c6_witness :
    (rgMain (fun _ => 0) 8
        (fun i => if i = 0 then 0x41 else if i = 2 then 5 else 0)
        true false false false).ret = 5 := by
  have h := (c6_hex_raw_validation (fun _ => 0) 8
      (fun i => if i = 0 then 0x41 else if i = 2 then 5 else 0)
      true false false false (by decide) (by decide)).1.2.1
      (by decide) (by decide) (by decide)
  exact h.trans (by decide)

/-- Claim C7: the REPORT BROADCAST decoder reads the stride (descriptor
length in dwords, byte 10, times 4) and the descriptor count (byte 11)
from fixed header offsets; a stride below 8 bytes fails as malformed
(ret = -1) before any descriptor is decoded, and otherwise exactly
num_descriptors descriptors are decoded starting at byte offset 12, each
step advancing by the stride. -/
theorem c7_broadcast_descriptors :
    ∀ (defTbl : Nat → Int) (act : Int) (resp : ByteBuf) (vb : Bool),
      ¬(0 ≤ act ∧ act < 4) →
      resp 0 = SMP_FRAME_TYPE_RESP → resp 1 = SMP_FN_REPORT_BROADCAST →
      resp 2 = 0 →
      (resp 10 * 4 < 8 →
        (rbMain defTbl act resp false false vb).ret = -1
        ∧ (rbMain defTbl act resp false false vb).descriptors = [])
      ∧ (8 ≤ resp 10 * 4 →
        (rbMain defTbl act resp false false vb).ret = 0
        ∧ (rbMain defTbl act resp false false vb).descriptors.length = resp 11
        ∧ ∀ k, k < resp 11 →
          (rbMain defTbl act resp false false vb).descriptors.getD k
              ⟨0, none, 0, 0⟩
            = rbDecodeDescr resp (12 + k * (resp 10 * 4))) := by
  intro defTbl act resp vb hact h0 h1 h2
  have hne0 : ¬(resp 0 ≠ SMP_FRAME_TYPE_RESP) := by simp [h0]
  have hne1 : ¬(resp 1 ≠ SMP_FN_REPORT_BROADCAST) := by simp [h1]
  have hne2 : ¬(resp 2 ≠ 0) := by simp [h2]
  have hrb : rbMain defTbl act resp false false vb
      = (if resp 10 * 4 < 8 then
          (⟨-1, none, rbHeaderFields resp vb, []⟩ : RbOut)
         else ⟨0, none, rbHeaderFields resp vb,
           (List.range (resp 11)).map fun k =>
             rbDecodeDescr resp (12 + k * (resp 10 * 4))⟩) := by
    simp only [rbMain, if_neg hact, Bool.or_self, Bool.false_eq_true,
      if_false, if_neg hne0, if_neg hne1, if_neg hne2]
  constructor
  · intro hlt
    rw [hrb, if_pos hlt]
    exact ⟨rfl, rfl⟩
  · intro hge
    rw [hrb, if_neg (by omega)]
    refine ⟨rfl, by simp, ?_⟩
    intro k hk
    exact getD_range_map _ _ _ _ hk

/-- Witness for C7: a response with stride 2 dwords (8 bytes) and 2
descriptors decodes descriptor 0 at byte offset 12. -/
theorem c7_witness :
    (rbMain (fun _ => 0) 28
        (fun i => if i = 0 then 0x41 else if i = 1 then 6 else
          if i = 10 then 2 else if i = 11 then 2 else
          if i = 13 then 3 else 0)
        false false false).descriptors.getD 0 ⟨0, none, 0, 0⟩
      = rbDecodeDescr
        (fun i => if i = 0 then 0x41 else if i = 1 then 6 else
          if i = 10 then 2 else if i = 11 then 2 else
          if i = 13 then 3 else 0) 12 := by
  have h := ((c7_broadcast_descriptors (fun _ => 0) 28
      (fun i => if i = 0 then 0x41 else if i = 1 then 6 else
        if i = 10 then 2 else if i = 11 then 2 else
        if i = 13 then 3 else 0)
      false (by decide) (by decide) (by decide) (by decide)).2
      (by decide)).2.2 0 (by decide)
  exact h.trans (by decide)

/-- An if-guarded OR-update equals an unconditional OR with a guarded mask. -/
theorem ite_lor (b : Bool) (x k : Nat) :
    (if b then x ||| k else x) = x ||| (if b then k else 0) := by
  cases b <;> simp

/-- Action of the itdefoi guarded write on a CONFIGURE GENERAL frame. -/
theorem cwItdefoiEq (b : Bool) (v : Nat)
    (a4 a5 a6 a7 a8 a9 a10 a11 a12 a13 a14 a15 a16 a17 a18 a19 : Nat) :
    condWrite b (fun r => (r.set 8 (r.getD 8 0 ||| 0x80)).set 9 (v % 256))
      (cgFrame a4 a5 a6 a7 a8 a9 a10 a11 a12 a13 a14 a15 a16 a17 a18 a19)
    = cgFrame a4 a5 a6 a7 (if b then a8 ||| 0x80 else a8)
        (if b then v % 256 else a9) a10 a11 a12 a13 a14 a15 a16 a17 a18 a19 := by
  cases b <;> rfl

/-- Action of the connect guarded write on a CONFIGURE GENERAL frame. -/
theorem cwConnectEq (b : Bool) (v : Nat)
    (a4 a5 a6 a7 a8 a9 a10 a11 a12 a13 a14 a15 a16 a17 a18 a19 : Nat) :
    condWrite b
      (fun r => sg_put_unaligned_be16 v (r.set 8 (r.getD 8 0 ||| 0x2)) 12)
      (cgFrame a4 a5 a6 a7 a8 a9 a10 a11 a12 a13 a14 a15 a16 a17 a18 a19)
    = cgFrame a4 a5 a6 a7 (if b then a8 ||| 0x2 else a8) a9 a10 a11
        (if b then v % 65536 / 256 else a12) (if b then v % 256 else a13)
        a14 a15 a16 a17 a18 a19 := by
  cases b <;> rfl

/-- Action of the inactivity guarded write on a CONFIGURE GENERAL frame. -/
theorem cwInactivityEq (b : Bool) (v : Nat)
    (a4 a5 a6 a7 a8 a9 a10 a11 a12 a13 a14 a15 a16 a17 a18 a19 : Nat) :
    condWrite b
      (fun r => sg_put_unaligned_be16 v (r.set 8 (r.getD 8 0 ||| 0x1)) 10)
      (cgFrame a4 a5 a6 a7 a8 a9 a10 a11 a12 a13 a14 a15 a16 a17 a18 a19)
    = cgFrame a4 a5 a6 a7 (if b then a8 ||| 0x1 else a8) a9
        (if b then v % 65536 / 256 else a10) (if b then v % 256 else a11)
        a12 a13 a14 a15 a16 a17 a18 a19 := by
  cases b <;> rfl

/-- Action of the nexus guarded write on a CONFIGURE GENERAL frame. -/
theorem cwNexusEq (b : Bool) (v : Nat)
    (a4 a5 a6 a7 a8 a9 a10 a11 a12 a13 a14 a15 a16 a17 a18 a19 : Nat) :
    condWrite b
      (fun r => sg_put_unaligned_be16 v (r.set 8 (r.getD 8 0 ||| 0x4)) 14)
      (cgFrame a4 a5 a6 a7 a8 a9 a10 a11 a12 a13 a14 a15 a16 a17 a18 a19)
    = cgFrame a4 a5 a6 a7 (if b then a8 ||| 0x4 else a8) a9 a10 a11 a12 a13
        (if b then v % 65536 / 256 else a14) (if b then v % 256 else a15)
        a16 a17 a18 a19 := by
  cases b <;> rfl

/-- Action of the open guarded write on a CONFIGURE GENERAL frame. -/
theorem cwOpenEq (b : Bool) (v : Nat)
    (a4 a5 a6 a7 a8 a9 a10 a11 a12 a13 a14 a15 a16 a17 a18 a19 : Nat) :
    condWrite b
      (fun r => sg_put_unaligned_be16 v (r.set 8 (r.getD 8 0 ||| 0x10)) 18)
      (cgFrame a4 a5 a6 a7 a8 a9 a10 a11 a12 a13 a14 a15 a16 a17 a18 a19)
    = cgFrame a4 a5 a6 a7 (if b then a8 ||| 0x10 else a8) a9 a10 a11 a12 a13
        a14 a15 a16 a17 (if b then v % 65536 / 256 else a18)
        (if b then v % 256 else a19) := by
  cases b <;> rfl

/-- Action of the power-done-timeout guarded write on a frame. -/
theorem cwPdtEq (b : Bool) (v : Nat)
    (a4 a5 a6 a7 a8 a9 a10 a11 a12 a13 a14 a15 a16 a17 a18 a19 : Nat) :
    condWrite b (fun r => (r.set 8 (r.getD 8 0 ||| 0x20)).set 17 (v % 256))
      (cgFrame a4 a5 a6 a7 a8 a9 a10 a11 a12 a13 a14 a15 a16 a17 a18 a19)
    = cgFrame a4 a5 a6 a7 (if b then a8 ||| 0x20 else a8) a9 a10 a11 a12 a13
        a14 a15 a16 (if b then v % 256 else a17) a18 a19 := by
  cases b <;> rfl

/-- Action of the reduced-functionality guarded write on a frame. -/
theorem cwReducedEq (b : Bool) (v : Nat)
    (a4 a5 a6 a7 a8 a9 a10 a11 a12 a13 a14 a15 a16 a17 a18 a19 : Nat) :
    condWrite b (fun r => (r.set 8 (r.getD 8 0 ||| 0x8)).set 16 (v % 256))
      (cgFrame a4 a5 a6 a7 a8 a9 a10 a11 a12 a13 a14 a15 a16 a17 a18 a19)
    = cgFrame a4 a5 a6 a7 (if b then a8 ||| 0x8 else a8) a9 a10 a11 a12 a13
        a14 a15 (if b then v % 256 else a16) a17 a18 a19 := by
  cases b <;> rfl

/-- Action of the ssp guarded write on a CONFIGURE GENERAL frame. -/
theorem cwSspEq (b : Bool) (v : Nat)
    (a4 a5 a6 a7 a8 a9 a10 a11 a12 a13 a14 a15 a16 a17 a18 a19 : Nat) :
    condWrite b
      (fun r => sg_put_unaligned_be16 v (r.set 8 (r.getD 8 0 ||| 0x40)) 6)
      (cgFrame a4 a5 a6 a7 a8 a9 a10 a11 a12 a13 a14 a15 a16 a17 a18 a19)
    = cgFrame a4 a5 (if b then v % 65536 / 256 else a6)
        (if b then v % 256 else a7) (if b then a8 ||| 0x40 else a8)
        a9 a10 a11 a12 a13 a14 a15 a16 a17 a18 a19 := by
  cases b <;> rfl

/-- Claim C8: the CONFIGURE GENERAL request builder always produces a
24-byte frame with byte 0 = 0x40 and byte 1 = the CONFIGURE GENERAL
function code, whatever parameters are supplied; each supplied optional
parameter ORs its own distinct modifier bit (0x80 itdefoi, 0x40 ssp, 0x20
power, 0x10 open, 0x8 reduced, 0x4 nexus, 0x2 connect, 0x1 inactivity)
into control byte 8 and writes its value field, and an unsupplied
parameter leaves both its modifier bit and its value field zero.  The
right-hand side lists all 24 bytes; byte 8 accumulates the guarded masks
in the order the source applies them. -/
theorem c8_conf_general_frame :
    ∀ p : CgParams,
      buildCgRequest p =
        [SMP_FRAME_TYPE_REQ, SMP_FN_CONFIG_GENERAL, 0, 4,
         p.expected_cc % 65536 / 256, p.expected_cc % 256,
         if p.do_ssp then p.ssp_ctl % 65536 / 256 else 0,
         if p.do_ssp then p.ssp_ctl % 256 else 0,
         0 ||| (if p.do_itdefoi then 0x80 else 0)
           ||| (if p.do_connect then 0x2 else 0)
           ||| (if p.do_inactivity then 0x1 else 0)
           ||| (if p.do_nexus then 0x4 else 0)
           ||| (if p.do_open then 0x10 else 0)
           ||| (if p.do_pdt then 0x20 else 0)
           ||| (if p.do_reduced then 0x8 else 0)
           ||| (if p.do_ssp then 0x40 else 0),
         if p.do_itdefoi then p.itdefoi_val % 256 else 0,
         if p.do_inactivity then p.inactivity_val % 65536 / 256 else 0,
         if p.do_inactivity then p.inactivity_val % 256 else 0,
         if p.do_connect then p.connect_val % 65536 / 256 else 0,
         if p.do_connect then p.connect_val % 256 else 0,
         if p.do_nexus then p.nexus_val % 65536 / 256 else 0,
         if p.do_nexus then p.nexus_val % 256 else 0,
         if p.do_reduced then p.reduced_val % 256 else 0,
         if p.do_pdt then p.power_val % 256 else 0,
         if p.do_open then p.open_val % 65536 / 256 else 0,
         if p.do_open then p.open_val % 256 else 0,
         0, 0, 0, 0]
      ∧ (buildCgRequest p).length = 24 := by
  intro p
  obtain ⟨cc, b1, v1, b2, v2, b3, v3, b4, v4, b5, v5, b6, v6, b7, v7, b8, v8⟩ := p
  have h0 : sg_put_unaligned_be16 cc
      [SMP_FRAME_TYPE_REQ, SMP_FN_CONFIG_GENERAL, 0, 4,
       0, 0, 0, 0, 0, 0, 0, 0, 0, 0, 0, 0, 0, 0, 0, 0, 0, 0, 0, 0] 4
      = cgFrame (cc % 65536 / 256) (cc % 256) 0 0 0 0 0 0 0 0 0 0 0 0 0 0 := rfl
  have heq : buildCgRequest
      ⟨cc, b1, v1, b2, v2, b3, v3, b4, v4, b5, v5, b6, v6, b7, v7, b8, v8⟩
      = cgFrame (cc % 65536 / 256) (cc % 256)
          (if b8 then v8 % 65536 / 256 else 0) (if b8 then v8 % 256 else 0)
          (0 ||| (if b1 then 0x80 else 0) ||| (if b2 then 0x2 else 0)
            ||| (if b3 then 0x1 else 0) ||| (if b4 then 0x4 else 0)
            ||| (if b5 then 0x10 else 0) ||| (if b6 then 0x20 else 0)
            ||| (if b7 then 0x8 else 0) ||| (if b8 then 0x40 else 0))
          (if b1 then v1 % 256 else 0)
          (if b3 then v3 % 65536 / 256 else 0) (if b3 then v3 % 256 else 0)
          (if b2 then v2 % 65536 / 256 else 0) (if b2 then v2 % 256 else 0)
          (if b4 then v4 % 65536 / 256 else 0) (if b4 then v4 % 256 else 0)
          (if b7 then v7 % 256 else 0) (if b6 then v6 % 256 else 0)
          (if b5 then v5 % 65536 / 256 else 0) (if b5 then v5 % 256 else 0) := by
    simp only [buildCgRequest]
    rw [h0, cwItdefoiEq, cwConnectEq, cwInactivityEq, cwNexusEq, cwOpenEq,
      cwPdtEq, cwReducedEq, cwSspEq]
    simp only [ite_lor]
  exact ⟨heq, by rw [heq]; rfl⟩
